import Mathlib

/-!
Verification of the process-lifecycle orchestrator of the Vein dedicated
server control plane (`app/server-api.py` and `app/entrypoint.py`).

The Python code is shallowly embedded: each relevant Python function becomes a
Lean function over explicit inputs (the host process table, the environment
variables, the on-disk executables, and the termination behaviour of the
managed process).  Side-effecting control flow (signals, waits, spawns) is
recorded as an explicit trace of actions so that ordering claims can be
stated and checked.
-/

namespace VeinServer

/-- Decides whether `pat` occurs as a contiguous substring of the character
list: embeds Python's `pat in s` on strings. -/
def charsContains (pat : List Char) : List Char → Bool
  | [] => pat.isEmpty
  | c :: rest => pat.isPrefixOf (c :: rest) || charsContains pat rest

/-- Python `pat in s` for strings (substring containment). -/
def strContains (s pat : String) : Bool :=
  charsContains pat.data s.data

/-- Python `s.startswith(pre)` for strings. -/
def strStartsWith (s pre : String) : Bool :=
  pre.data.isPrefixOf s.data

/-- A row of the host process table as read by `psutil.process_iter`
(`pid`, `name`, `cmdline`). -/
structure ProcessHandle where
  pid : Nat
  name : String
  cmdline : List String
deriving DecidableEq, Repr

/-- The match predicate of `get_server_process`: Python's
`'VeinServer' in proc.info['name'] or (proc.info['cmdline'] and
any('VeinServer' in cmd for cmd in proc.info['cmdline']))`. -/
def matchesVeinServer (p : ProcessHandle) : Bool :=
  strContains p.name "VeinServer" ||
    (!p.cmdline.isEmpty && p.cmdline.any fun c => strContains c "VeinServer")

/-- Embeds `get_server_process` (`server-api.py` lines 94-103): scan the host
process table and return the first matching process, if any. -/
def get_server_process (table : List ProcessHandle) : Option ProcessHandle :=
  table.find? matchesVeinServer

/-- An HTTP request's credential material: the `X-API-Key` header and the
`api_key` query parameter, each possibly absent. -/
structure ApiRequest where
  headerApiKey : Option String
  queryApiKey : Option String
deriving DecidableEq, Repr

/-- Python's `a or b` on optional strings: `a`'s value if present and truthy
(non-empty), otherwise `b`. -/
def pyStrOr (a b : Option String) : Option String :=
  match a with
  | some s => if s.isEmpty then b else some s
  | none => b

/-- Outcome of the authentication guard: either the wrapped handler runs, or
the request is rejected with the 401 Unauthorized JSON error. -/
inductive AuthOutcome where
  | handlerRun
  | unauthorized
deriving DecidableEq, Repr

/-- Embeds `require_api_key` (`server-api.py` lines 49-60): if the configured
`API_KEY` is falsy (empty), the handler runs unconditionally; otherwise the
provided key is `headers.get('X-API-Key') or args.get('api_key')` and the
handler runs iff it equals `API_KEY`, else 401. -/
def require_api_key (apiKey : String) (req : ApiRequest) : AuthOutcome :=
  if apiKey.isEmpty then .handlerRun
  else
    let provided := pyStrOr req.headerApiKey req.queryApiKey
    if provided ≠ some apiKey then .unauthorized else .handlerRun

/-- The environment variables read by the lifecycle code paths
(`SERVER_PATH`, `GAME_PORT`, `GAME_SERVER_QUERY_PORT`,
`SERVER_MULTIHOME_IP`); `none` models an unset variable. -/
structure Env where
  serverPath : Option String
  gamePort : Option String
  queryPort : Option String
  multihomeIP : Option String
deriving DecidableEq, Repr

/-- Python truthiness of `os.getenv(...)`: set and non-empty. -/
def envTruthy : Option String → Bool
  | none => false
  | some s => !s.isEmpty

/-- Default install directory used by `os.getenv('SERVER_PATH', ...)`. -/
def SERVER_PATH_DEFAULT : String := "/home/steam/vein-server"

/-- `os.getenv('SERVER_PATH', '/home/steam/vein-server')`. -/
def resolvedServerPath (env : Env) : String :=
  env.serverPath.getD SERVER_PATH_DEFAULT

/-- Which server executables exist on disk
(`os.path.isfile` on `VeinServer.sh` and `VeinServer`). -/
structure Disk where
  veinServerShPresent : Bool
  veinServerPresent : Bool
deriving DecidableEq, Repr

/-- Termination behaviour of the managed process relative to the two waits
the code performs: whether it exits within the graceful `proc.wait` after
`terminate()`, and, failing that, within the shorter `proc.wait` after
`kill()` (45 s / 10 s in `restart_server`, 30 s / 5 s in `update_server`). -/
structure StopBehavior where
  exitsWithinGraceful : Bool
  exitsWithinForce : Bool
deriving DecidableEq, Repr

/-- Server arguments rebuilt by `restart_server` (`server-api.py` lines
460-467) purely from environment variables: `-log` plus `-Port`,
`-QueryPort` and `-multihome` flags, each emitted only when the
corresponding variable is set and non-empty. -/
def restartServerArgs (env : Env) : List String :=
  ["-log"]
    ++ (if envTruthy env.gamePort then ["-Port=" ++ env.gamePort.getD ""] else [])
    ++ (if envTruthy env.queryPort then ["-QueryPort=" ++ env.queryPort.getD ""] else [])
    ++ (if envTruthy env.multihomeIP then ["-multihome=" ++ env.multihomeIP.getD ""] else [])

/-- Executable resolution of `restart_server` (`server-api.py` lines
469-481): prefer `VeinServer.sh`, fall back to `VeinServer`, else `none`
(which the route maps to the 500 "VeinServer executable not found"). -/
def resolveExecutable (env : Env) (disk : Disk) : Option String :=
  if disk.veinServerShPresent then some (resolvedServerPath env ++ "/VeinServer.sh")
  else if disk.veinServerPresent then some (resolvedServerPath env ++ "/VeinServer")
  else none

/-- Observable actions performed by `restart_server`, in program order:
terminate children, SIGTERM the main process, the 45 s graceful wait, the
kill escalation on its children and itself, the 10 s forced wait, the 2 s
cleanup sleep, and the detached spawn of the new server process. -/
inductive RAct where
  | rTerminateChildren
  | rTerminate
  | rWaitGraceful
  | rKillChildren
  | rKill
  | rWaitForce
  | rSleep
  | rSpawn (exe : String) (args : List String)
deriving DecidableEq, Repr

/-- The JSON responses `restart_server` can produce. -/
inductive RestartResult where
  | notFound
  | couldNotTerminate
  | execMissing
  | success (previousPid : Nat)
deriving DecidableEq, Repr

/-- The `error` field of each `restart_server` response, verbatim from the
source (`none` for the success payload). -/
def RestartResult.errorMsg : RestartResult → Option String
  | .notFound => some "Server process not found"
  | .couldNotTerminate => some "Server process could not be terminated"
  | .execMissing => some "VeinServer executable not found"
  | .success _ => none

/-- Tail of `restart_server` after the shutdown phase succeeded: the 2 s
sleep, executable resolution, and — when an executable exists — the
detached `subprocess.Popen` of the new server. -/
def restartAfterShutdown (env : Env) (disk : Disk) (pid : Nat) (acts : List RAct) :
    List RAct × RestartResult :=
  match resolveExecutable env disk with
  | none => (acts ++ [.rSleep], .execMissing)
  | some exe => (acts ++ [.rSleep, .rSpawn exe (restartServerArgs env)], .success pid)

/-- Embeds `restart_server` (`server-api.py` lines 378-519) as a trace of
actions plus a response, parameterised by the scan result and the
terminated process's behaviour at the two waits. -/
def restart_server (env : Env) (disk : Disk)
    (scan : Option (Nat × StopBehavior)) : List RAct × RestartResult :=
  match scan with
  | none => ([], .notFound)
  | some (pid, b) =>
    if b.exitsWithinGraceful then
      restartAfterShutdown env disk pid [.rTerminateChildren, .rTerminate, .rWaitGraceful]
    else if b.exitsWithinForce then
      restartAfterShutdown env disk pid
        [.rTerminateChildren, .rTerminate, .rWaitGraceful, .rKillChildren, .rKill, .rWaitForce]
    else
      ([.rTerminateChildren, .rTerminate, .rWaitGraceful, .rKillChildren, .rKill, .rWaitForce],
        .couldNotTerminate)

/-- Observable actions performed by `update_server`, in program order:
SIGTERM, the 30 s graceful wait, the kill escalation, the 5 s forced wait,
the 2 s sleep, and the detached spawn of `/entrypoint.py` (which performs
the SteamCMD provisioning before relaunching the server). -/
inductive UAct where
  | uTerminate
  | uWaitGraceful
  | uKill
  | uWaitForce
  | uSleep
  | uSpawnEntrypoint
deriving DecidableEq, Repr

/-- The JSON responses `update_server` can produce. -/
inductive UpdateResult where
  | couldNotStop
  | initiated (appid : String)
deriving DecidableEq, Repr

/-- The `error` field of each `update_server` response, verbatim from the
source. -/
def UpdateResult.errorMsg : UpdateResult → Option String
  | .couldNotStop => some "Could not stop server for update"
  | .initiated _ => none

/-- The JSON keys of each `update_server` response, verbatim from the
source. -/
def UpdateResult.responseKeys : UpdateResult → List String
  | .couldNotStop => ["error", "note"]
  | .initiated _ =>
      ["success", "message", "appid", "discord_notification_sent", "note", "how_it_works"]

/-- Embeds `update_server` (`server-api.py` lines 548-627) as a trace of
actions plus a response.  The response is built and returned immediately
after the detached entrypoint spawn; no provisioning outcome flows into
it. -/
def update_server (appid : String) (scan : Option (Nat × StopBehavior)) :
    List UAct × UpdateResult :=
  match scan with
  | none => ([.uSpawnEntrypoint], .initiated appid)
  | some (_, b) =>
    if b.exitsWithinGraceful then
      ([.uTerminate, .uWaitGraceful, .uSleep, .uSpawnEntrypoint], .initiated appid)
    else if b.exitsWithinForce then
      ([.uTerminate, .uWaitGraceful, .uKill, .uWaitForce, .uSleep, .uSpawnEntrypoint],
        .initiated appid)
    else
      ([.uTerminate, .uWaitGraceful, .uKill, .uWaitForce], .couldNotStop)

/-- Whether the process located by the scan is still alive once the shutdown
phase of `update_server` is over: it survived both the graceful and the
forced wait.  An empty scan means nothing is alive. -/
def scanStillAliveAfterShutdownPhase : Option (Nat × StopBehavior) → Bool
  | none => false
  | some (_, b) => !b.exitsWithinGraceful && !b.exitsWithinForce

/-- The argument record of a Python `subprocess.run(...)` call: the command
vector, the `check` flag, and the wall-clock `timeout` parameter (`none`
when the call passes no timeout). -/
structure SubprocessRunCall where
  cmd : List String
  check : Bool
  timeout : Option Nat
deriving DecidableEq, Repr

/-- Path of the SteamCMD launcher script. -/
def STEAMCMD : String := "/home/steam/steamcmd/steamcmd.sh"

/-- Embeds `install_or_update_server` (`entrypoint.py` lines 165-182): the
exact `subprocess.run` invocation of SteamCMD `app_update` it performs —
`check=True` and no `timeout` argument. -/
def install_or_update_server (serverPath appid steamUser steamPass steamAuth : String) :
    SubprocessRunCall :=
  { cmd := [STEAMCMD, "+force_install_dir", serverPath,
            "+login", steamUser, steamPass, steamAuth,
            "+app_update", appid, "validate", "+quit"]
    check := true
    timeout := none }

/-- Server arguments built by `start_server` (`entrypoint.py` lines
209-225): `-log`, `-QueryPort` and `-Port` (with defaults 27015 / 7777),
optional `-multihome`, then the operator-supplied extra arguments. -/
def start_server_args (env : Env) (extra : List String) : List String :=
  ["-log", "-QueryPort=" ++ env.queryPort.getD "27015", "-Port=" ++ env.gamePort.getD "7777"]
    ++ (if envTruthy env.multihomeIP then ["-multihome=" ++ env.multihomeIP.getD ""] else [])
    ++ extra

/-- Outcome of `start_server`: `os.execv` of the chosen executable with the
full argv, or the `sys.exit(1)` taken when no executable is found. -/
inductive StartOutcome where
  | execStart (exe : String) (argv : List String)
  | missingExecutableExit
deriving DecidableEq, Repr

/-- Embeds `start_server` (`entrypoint.py` lines 209-239): prefer
`./VeinServer.sh`, fall back to `./VeinServer`, else exit with an error. -/
def start_server (env : Env) (disk : Disk) (extra : List String) : StartOutcome :=
  if disk.veinServerShPresent then
    .execStart "./VeinServer.sh" ("./VeinServer.sh" :: start_server_args env extra)
  else if disk.veinServerPresent then
    .execStart "./VeinServer" ("./VeinServer" :: start_server_args env extra)
  else .missingExecutableExit

/-- Whether an argument is a listen-port flag (`-Port=...`). -/
def isPortFlag (a : String) : Bool :=
  "-Port=".data.isPrefixOf a.data

/-- Whether an argument is a query-port flag (`-QueryPort=...`). -/
def isQueryPortFlag (a : String) : Bool :=
  "-QueryPort=".data.isPrefixOf a.data

/-- The log directory `LOG_DIR = SERVER_PATH + '/Vein/Saved/Logs'` at the
default server path. -/
def LOG_DIR : String := "/home/steam/vein-server/Vein/Saved/Logs"

/-- Python `os.path.join(base, rel)` for a base without trailing slash: the
second component replaces the first when absolute, else they are joined
with a slash. -/
def pathJoin (base rel : String) : String :=
  if strStartsWith rel "/" then rel else base ++ "/" ++ rel

/-- Responses of the log-content endpoint: the 404 error or the content of
the opened path. -/
inductive LogResponse where
  | logNotFound
  | content (path : String)
deriving DecidableEq, Repr

/-- Embeds `get_log_content` (`server-api.py` lines 333-356): join the
requested filename onto `LOG_DIR`; if the joined path does not exist or
does not start with `LOG_DIR` (a plain string-prefix test on the
*unnormalised* path), answer 404, else open and return that path's
content.  `fileAt` models `os.path.exists`. -/
def get_log_content (fileAt : String → Bool) (filename : String) : LogResponse :=
  let log_path := pathJoin LOG_DIR filename
  if !fileAt log_path || !strStartsWith log_path LOG_DIR then .logNotFound
  else .content log_path

/-- Splits a character list on `'/'` into path segments. -/
def splitSlash : List Char → List (List Char)
  | [] => [[]]
  | c :: rest =>
    if c = '/' then [] :: splitSlash rest
    else
      match splitSlash rest with
      | [] => [[c]]
      | s :: ss => (c :: s) :: ss

/-- Resolves `.`, `..` and empty segments the way the operating system
resolves a path when the file is actually opened: fold the segments onto a
stack. -/
def normSegs : List (List Char) → List (List Char) → List (List Char)
  | stack, [] => stack
  | stack, seg :: rest =>
    if seg = [] ∨ seg = ['.'] then normSegs stack rest
    else if seg = ['.', '.'] then normSegs stack.dropLast rest
    else normSegs (stack ++ [seg]) rest

/-- Rejoins path segments with `'/'`. -/
def joinSlash : List (List Char) → List Char
  | [] => []
  | [s] => s
  | s :: rest => s ++ '/' :: joinSlash rest

/-- Normal form of an absolute path: what the operating system actually
opens when the code opens `p`. -/
def normalizePath (p : String) : String :=
  ⟨'/' :: joinSlash (normSegs [] (splitSlash p.data))⟩

/-- Whether a normalised path lies strictly inside the log directory. -/
def insideLogDir (p : String) : Bool :=
  strStartsWith p (LOG_DIR ++ "/")

/-- A traversal filename: six `..` segments climb from `LOG_DIR` (six
directories deep) back to the filesystem root. -/
def traversalName : String := "../../../../../../etc/passwd"

/-- Concrete environment used by witnesses: default server path, the ports
of the spec's example scenario, no multihome. -/
def envDefault : Env :=
  { serverPath := none, gamePort := some "7777", queryPort := some "27015",
    multihomeIP := none }

/-- Concrete disk used by witnesses: both executable candidates present. -/
def diskBoth : Disk := { veinServerShPresent := true, veinServerPresent := true }

/-- A process that exits within the graceful wait. -/
def behaviorGraceful : StopBehavior := { exitsWithinGraceful := true, exitsWithinForce := true }

/-- A process that never exits, surviving even the forced wait. -/
def behaviorStuck : StopBehavior := { exitsWithinGraceful := false, exitsWithinForce := false }

end VeinServer

namespace VeinServer

/-- No possible `restart_server` response carries a `LifecycleBusy` error:
the route has no lock and no busy branch. -/
theorem restartResult_no_busy (r : RestartResult) :
    r.errorMsg ≠ some "LifecycleBusy" := by
  cases r <;> simp [RestartResult.errorMsg]

/-- No possible `update_server` response carries a `LifecycleBusy` error. -/
theorem updateResult_no_busy (r : UpdateResult) :
    r.errorMsg ≠ some "LifecycleBusy" := by
  cases r <;> simp [UpdateResult.errorMsg]

/-- When it can evaluate both flag predicates to `false` on every element,
a list contributes no port flags. -/
theorem countP_port_zero (l : List String)
    (h : ∀ a ∈ l, isPortFlag a = false ∧ isQueryPortFlag a = false) :
    l.countP isPortFlag = 0 ∧ l.countP isQueryPortFlag = 0 := by
  constructor <;> rw [List.countP_eq_zero] <;> intro a ha
  · simp [(h a ha).1]
  · simp [(h a ha).2]

/-- A `-multihome=...` argument is not a listen-port flag. -/
theorem isPortFlag_multihome (s : String) : isPortFlag ("-multihome=" ++ s) = false := by
  simp [isPortFlag, String.data_append, List.isPrefixOf]

/-- A `-multihome=...` argument is not a query-port flag. -/
theorem isQueryPortFlag_multihome (s : String) :
    isQueryPortFlag ("-multihome=" ++ s) = false := by
  simp [isQueryPortFlag, String.data_append, List.isPrefixOf]

/-- Claim C3: a scan by the locator never returns the control plane's own
process: whenever the table contains the controller itself — whose name and
command line, being the Python interpreter running `server-api.py`, contain
no occurrence of `"VeinServer"` — any handle the scan returns has a pid
different from the controller's (pids being unique in a process table). -/
theorem locator_never_returns_self (table : List ProcessHandle)
    (self p : ProcessHandle)
    (hname : strContains self.name "VeinServer" = false)
    (hcmd : ∀ c ∈ self.cmdline, strContains c "VeinServer" = false)
    (hpids : (table.map ProcessHandle.pid).Nodup)
    (hmem : self ∈ table)
    (hfound : get_server_process table = some p) :
    p.pid ≠ self.pid := by
  have hpmem : p ∈ table := List.mem_of_find?_eq_some hfound
  have hpmatch : matchesVeinServer p = true := List.find?_some hfound
  have hself : matchesVeinServer self = false := by
    unfold matchesVeinServer
    rw [hname]
    simp only [Bool.false_or, Bool.and_eq_false_imp]
    intro _
    rw [List.any_eq_false]
    intro c hc
    simpa using hcmd c hc
  have hne : p ≠ self := by
    intro h
    rw [h, hself] at hpmatch
    exact Bool.false_ne_true hpmatch
  intro hpid
  exact hne (List.inj_on_of_nodup_map hpids hpmem hmem hpid)

/-- Witness for C3: a concrete table holding the controller
(`python3 /app/server-api.py`, pid 1) and the server (pid 42); the scan
returns the server, whose pid differs from the controller's. -/
theorem locator_never_returns_self_witness :
    (get_server_process
        [⟨1, "python3", ["python3", "/app/server-api.py"]⟩,
         ⟨42, "VeinServer-Linux", ["./VeinServer.sh", "-log"]⟩] =
      some ⟨42, "VeinServer-Linux", ["./VeinServer.sh", "-log"]⟩) ∧
    (42 ≠ 1) := by
  refine ⟨by decide, ?_⟩
  exact locator_never_returns_self
    [⟨1, "python3", ["python3", "/app/server-api.py"]⟩,
     ⟨42, "VeinServer-Linux", ["./VeinServer.sh", "-log"]⟩]
    ⟨1, "python3", ["python3", "/app/server-api.py"]⟩
    ⟨42, "VeinServer-Linux", ["./VeinServer.sh", "-log"]⟩
    (by decide) (by decide) (by decide) (by decide) (by decide)

/-- Claim C10 counterexample: with a non-empty configured key `"secret"`, a
request whose `X-API-Key` header is `"wrong"` but whose `api_key` query
parameter equals `"secret"` is rejected with Unauthorized, although the
claim ("the handler executes if the header or the query parameter equals
the key") demands that the handler run. -/
theorem api_key_header_shadows_query :
    require_api_key "secret" ⟨some "wrong", some "secret"⟩ =
        AuthOutcome.unauthorized ∧
    (some "secret" = some "secret" ∨ (some "wrong" : Option String) = some "secret") := by
  constructor
  · decide
  · left; rfl

/-- Claim C10 (amended): with an empty configured key the handler always
runs; with a non-empty key the handler runs iff the effective credential —
the `X-API-Key` header when present and non-empty, otherwise the `api_key`
query parameter — equals the configured key. -/
theorem require_api_key_spec (apiKey : String) (req : ApiRequest) :
    (apiKey.isEmpty = true → require_api_key apiKey req = .handlerRun) ∧
    (apiKey.isEmpty = false →
      (require_api_key apiKey req = .handlerRun ↔
        pyStrOr req.headerApiKey req.queryApiKey = some apiKey)) := by
  constructor
  · intro h
    unfold require_api_key
    rw [h]
    rfl
  · intro h
    unfold require_api_key
    rw [h]
    by_cases hp : pyStrOr req.headerApiKey req.queryApiKey = some apiKey
    · simp [hp]
    · simp [hp]

/-- Witness for C10 (amended): at the empty key every request runs the
handler; at key `"secret"` a request carrying only the matching query
parameter runs the handler. -/
theorem require_api_key_spec_witness :
    require_api_key "" ⟨some "anything", none⟩ = .handlerRun ∧
    require_api_key "secret" ⟨none, some "secret"⟩ = .handlerRun := by
  refine ⟨(require_api_key_spec "" ⟨some "anything", none⟩).1 rfl, ?_⟩
  exact ((require_api_key_spec "secret" ⟨none, some "secret"⟩).2 rfl).mpr (by decide)

/-- Claim C1: in every update invocation, provisioning (the detached spawn
of the entrypoint, which runs SteamCMD `app_update`) starts only after the
shutdown of the located process has completed: if the spawn occurs, the
located process is no longer alive after the shutdown phase; if it is
still alive after both waits, the operation aborts with the stop error and
never spawns; and when the spawn occurs it is the last action of the
trace, after every shutdown wait. -/
theorem update_shutdown_completes_before_provisioning (appid : String)
    (scan : Option (Nat × StopBehavior)) :
    (UAct.uSpawnEntrypoint ∈ (update_server appid scan).1 →
      scanStillAliveAfterShutdownPhase scan = false) ∧
    (scanStillAliveAfterShutdownPhase scan = true →
      (update_server appid scan).2 = .couldNotStop ∧
      UAct.uSpawnEntrypoint ∉ (update_server appid scan).1) ∧
    ((update_server appid scan).1.getLast? = some UAct.uSpawnEntrypoint ∨
      UAct.uSpawnEntrypoint ∉ (update_server appid scan).1) := by
  match scan with
  | none => exact ⟨fun _ => rfl, fun h => absurd h (by decide), Or.inl rfl⟩
  | some (pid, b) =>
    cases hg : b.exitsWithinGraceful <;> cases hf : b.exitsWithinForce <;>
      simp [update_server, scanStillAliveAfterShutdownPhase, hg, hf, List.getLast?]

/-- Witness for C1: a process that exits gracefully is dead once the
entrypoint is spawned; a process that survives both waits makes the update
abort with the stop error, with no entrypoint spawn. -/
theorem update_shutdown_completes_before_provisioning_witness :
    scanStillAliveAfterShutdownPhase (some (9, behaviorGraceful)) = false ∧
    ((update_server "2131400" (some (9, behaviorStuck))).2 = .couldNotStop ∧
      UAct.uSpawnEntrypoint ∉ (update_server "2131400" (some (9, behaviorStuck))).1) :=
  ⟨(update_shutdown_completes_before_provisioning "2131400" (some (9, behaviorGraceful))).1
      (by decide),
   (update_shutdown_completes_before_provisioning "2131400" (some (9, behaviorStuck))).2.1 rfl⟩

/-- Claim C2 counterexample: two lifecycle-mutating restart requests,
serialized by the single-threaded development server, both proceed to
mutate state — each terminates the process it scanned and spawns a new
server — and neither receives a `LifecycleBusy` error, contradicting the
claim that exactly one proceeds while the other fails with
`LifecycleBusy`. -/
theorem concurrent_restarts_counterexample :
    (restart_server envDefault diskBoth (some (100, behaviorGraceful))).2 =
        .success 100 ∧
    (restart_server envDefault diskBoth (some (101, behaviorGraceful))).2 =
        .success 101 ∧
    RAct.rSpawn (SERVER_PATH_DEFAULT ++ "/VeinServer.sh") (restartServerArgs envDefault) ∈
      (restart_server envDefault diskBoth (some (100, behaviorGraceful))).1 ∧
    RAct.rSpawn (SERVER_PATH_DEFAULT ++ "/VeinServer.sh") (restartServerArgs envDefault) ∈
      (restart_server envDefault diskBoth (some (101, behaviorGraceful))).1 ∧
    RestartResult.errorMsg
        (restart_server envDefault diskBoth (some (101, behaviorGraceful))).2 ≠
      some "LifecycleBusy" := by
  refine ⟨?_, ?_, ?_, ?_, ?_⟩ <;> decide

/-- Claim C2 (amended): the code has no lifecycle lock: a second mutating
request is never rejected — both of two restart requests (for any pids
scanned, a process that stops gracefully, and the wrapper script on disk)
run their full shutdown-and-spawn sequence — and no possible response of
`restart_server` or `update_server` carries a `LifecycleBusy` error. -/
theorem concurrent_mutations_unserialized (env : Env) (disk : Disk)
    (pid₁ pid₂ : Nat) (b : StopBehavior)
    (hb : b.exitsWithinGraceful = true)
    (hsh : disk.veinServerShPresent = true) :
    ((restart_server env disk (some (pid₁, b))).2 = .success pid₁ ∧
      (restart_server env disk (some (pid₂, b))).2 = .success pid₂) ∧
    (∀ scan, RestartResult.errorMsg (restart_server env disk scan).2 ≠
        some "LifecycleBusy") ∧
    (∀ appid scan, UpdateResult.errorMsg (update_server appid scan).2 ≠
        some "LifecycleBusy") := by
  refine ⟨⟨?_, ?_⟩, fun scan => restartResult_no_busy _,
    fun appid scan => updateResult_no_busy _⟩ <;>
    simp [restart_server, restartAfterShutdown, resolveExecutable, hb, hsh]

/-- Witness for C2 (amended): concrete pids 1 and 2, a gracefully-stopping
process, and both executables on disk. -/
theorem concurrent_mutations_unserialized_witness :
    ((restart_server envDefault diskBoth (some (1, behaviorGraceful))).2 = .success 1 ∧
      (restart_server envDefault diskBoth (some (2, behaviorGraceful))).2 = .success 2) ∧
    RestartResult.errorMsg (restart_server envDefault diskBoth none).2 ≠
      some "LifecycleBusy" ∧
    UpdateResult.errorMsg (update_server "2131400" none).2 ≠ some "LifecycleBusy" := by
  have h := concurrent_mutations_unserialized envDefault diskBoth 1 2 behaviorGraceful rfl rfl
  exact ⟨h.1, h.2.1 none, h.2.2 "2131400" none⟩

/-- Claim C4: in every restart with a located process, the forced kill is
issued iff the process did not exit within the 45-second graceful wait;
and if it is still alive after the 10-second forced wait, the route
answers the fatal "could not be terminated" error and no new server
process is spawned. -/
theorem restart_forced_kill_iff_graceful_timeout (env : Env) (disk : Disk)
    (pid : Nat) (b : StopBehavior) :
    (RAct.rKill ∈ (restart_server env disk (some (pid, b))).1 ↔
      b.exitsWithinGraceful = false) ∧
    (b.exitsWithinGraceful = false → b.exitsWithinForce = false →
      (restart_server env disk (some (pid, b))).2 = .couldNotTerminate ∧
      ∀ e a, RAct.rSpawn e a ∉ (restart_server env disk (some (pid, b))).1) := by
  cases hg : b.exitsWithinGraceful <;> cases hf : b.exitsWithinForce <;>
    cases hr : resolveExecutable env disk <;>
      simp [restart_server, restartAfterShutdown, hg, hf, hr]

/-- Witness for C4: a stuck process (surviving both waits) yields the fatal
error and its trace contains no spawn of the default wrapper script. -/
theorem restart_forced_kill_iff_graceful_timeout_witness :
    (restart_server envDefault diskBoth (some (7, behaviorStuck))).2 =
        .couldNotTerminate ∧
    RAct.rSpawn (SERVER_PATH_DEFAULT ++ "/VeinServer.sh") (restartServerArgs envDefault) ∉
      (restart_server envDefault diskBoth (some (7, behaviorStuck))).1 :=
  ⟨((restart_forced_kill_iff_graceful_timeout envDefault diskBoth 7 behaviorStuck).2
      rfl rfl).1,
   ((restart_forced_kill_iff_graceful_timeout envDefault diskBoth 7 behaviorStuck).2
      rfl rfl).2 _ _⟩

/-- Claim C5 counterexample: a restart request with no located server
process answers the 404 "Server process not found" error with an empty
action trace — no launch is performed — contradicting the claim of an
error-free pure start. -/
theorem restart_when_stopped_counterexample :
    restart_server envDefault diskBoth none = ([], .notFound) ∧
    RestartResult.errorMsg .notFound = some "Server process not found" :=
  ⟨rfl, rfl⟩

/-- Claim C5 (amended): for every environment and disk state, a restart
request with no located server process returns the 404 "Server process
not found" error and performs no action at all: no shutdown phase and no
launch. -/
theorem restart_when_stopped_returns_notFound (env : Env) (disk : Disk) :
    restart_server env disk none = ([], .notFound) := rfl

/-- Claim C6 counterexample: the provisioning invocation built by
`install_or_update_server` — the SteamCMD `app_update` call at the
default install directory — passes no `timeout` to `subprocess.run`,
contradicting the claim of a hard wall-clock timeout with a killed
subprocess and a `timed_out=true` report. -/
theorem provisioning_has_no_timeout :
    (install_or_update_server SERVER_PATH_DEFAULT "2131400" "anonymous" "" "").timeout =
        none ∧
    "+app_update" ∈
      (install_or_update_server SERVER_PATH_DEFAULT "2131400" "anonymous" "" "").cmd := by
  exact ⟨rfl, by decide⟩

/-- Claim C6 (amended): for every set of arguments, the provisioning
subprocess invocation carries no timeout (an unbounded blocking wait) and
raises on a non-zero exit (`check=True`); no timed-out outcome exists. -/
theorem provisioning_run_unbounded (serverPath appid steamUser steamPass steamAuth : String) :
    (install_or_update_server serverPath appid steamUser steamPass steamAuth).timeout =
        none ∧
    (install_or_update_server serverPath appid steamUser steamPass steamAuth).check =
        true :=
  ⟨rfl, rfl⟩

/-- Claim C7: with `GAME_PORT=7777` and `GAME_SERVER_QUERY_PORT=27015` and
extra arguments free of port flags, both launch-argument builders emit
`-Port=7777` and `-QueryPort=27015` verbatim with exactly one flag of
each kind; and the launcher prefers `VeinServer.sh` over `VeinServer`,
exiting with the missing-executable error when neither exists. -/
theorem launch_plan_ports_and_executable (env : Env) (disk : Disk) (extra : List String)
    (hg : env.gamePort = some "7777") (hq : env.queryPort = some "27015")
    (hextra : ∀ a ∈ extra, isPortFlag a = false ∧ isQueryPortFlag a = false) :
    ("-Port=7777" ∈ start_server_args env extra ∧
      "-QueryPort=27015" ∈ start_server_args env extra ∧
      (start_server_args env extra).countP isPortFlag = 1 ∧
      (start_server_args env extra).countP isQueryPortFlag = 1) ∧
    ("-Port=7777" ∈ restartServerArgs env ∧
      "-QueryPort=27015" ∈ restartServerArgs env ∧
      (restartServerArgs env).countP isPortFlag = 1 ∧
      (restartServerArgs env).countP isQueryPortFlag = 1) ∧
    (disk.veinServerShPresent = true →
      start_server env disk extra =
        .execStart "./VeinServer.sh" ("./VeinServer.sh" :: start_server_args env extra) ∧
      resolveExecutable env disk = some (resolvedServerPath env ++ "/VeinServer.sh")) ∧
    (disk.veinServerShPresent = false → disk.veinServerPresent = true →
      start_server env disk extra =
        .execStart "./VeinServer" ("./VeinServer" :: start_server_args env extra) ∧
      resolveExecutable env disk = some (resolvedServerPath env ++ "/VeinServer")) ∧
    (disk.veinServerShPresent = false → disk.veinServerPresent = false →
      start_server env disk extra = .missingExecutableExit ∧
      resolveExecutable env disk = none) := by
  have hextra0 := countP_port_zero extra hextra
  have hfoldS : start_server_args env extra =
      ["-log", "-QueryPort=27015", "-Port=7777"] ++
        (if envTruthy env.multihomeIP then ["-multihome=" ++ env.multihomeIP.getD ""]
          else []) ++ extra := by
    unfold start_server_args
    rw [hg, hq]
    rfl
  have hfoldR : restartServerArgs env =
      ["-log", "-Port=7777", "-QueryPort=27015"] ++
        (if envTruthy env.multihomeIP then ["-multihome=" ++ env.multihomeIP.getD ""]
          else []) := by
    unfold restartServerArgs
    rw [hg, hq]
    rfl
  refine ⟨⟨?_, ?_, ?_, ?_⟩, ⟨?_, ?_, ?_, ?_⟩, ?_, ?_, ?_⟩
  · rw [hfoldS]; cases hmh : envTruthy env.multihomeIP <;> simp
  · rw [hfoldS]; cases hmh : envTruthy env.multihomeIP <;> simp
  · rw [hfoldS]
    cases hmh : envTruthy env.multihomeIP <;>
      simp [List.countP_append, hextra0.1, isPortFlag_multihome,
        List.countP_cons, List.countP_nil] <;> decide
  · rw [hfoldS]
    cases hmh : envTruthy env.multihomeIP <;>
      simp [List.countP_append, hextra0.2, isQueryPortFlag_multihome,
        List.countP_cons, List.countP_nil] <;> decide
  · rw [hfoldR]; cases hmh : envTruthy env.multihomeIP <;> simp
  · rw [hfoldR]; cases hmh : envTruthy env.multihomeIP <;> simp
  · rw [hfoldR]
    cases hmh : envTruthy env.multihomeIP <;>
      simp [List.countP_append, isPortFlag_multihome,
        List.countP_cons, List.countP_nil] <;> decide
  · rw [hfoldR]
    cases hmh : envTruthy env.multihomeIP <;>
      simp [List.countP_append, isQueryPortFlag_multihome,
        List.countP_cons, List.countP_nil] <;> decide
  · intro hsh
    exact ⟨by simp [start_server, hsh], by simp [resolveExecutable, hsh]⟩
  · intro hsh hbin
    exact ⟨by simp [start_server, hsh, hbin], by simp [resolveExecutable, hsh, hbin]⟩
  · intro hsh hbin
    exact ⟨by simp [start_server, hsh, hbin], by simp [resolveExecutable, hsh, hbin]⟩

/-- Witness for C7: the concrete spec-example environment, one innocuous
extra argument, and the wrapper script on disk. -/
theorem launch_plan_ports_and_executable_witness :
    ("-Port=7777" ∈ start_server_args envDefault ["-NoSteam"] ∧
      "-QueryPort=27015" ∈ start_server_args envDefault ["-NoSteam"]) ∧
    (start_server_args envDefault ["-NoSteam"]).countP isPortFlag = 1 ∧
    start_server envDefault diskBoth ["-NoSteam"] =
      .execStart "./VeinServer.sh"
        ("./VeinServer.sh" :: start_server_args envDefault ["-NoSteam"]) := by
  have h := launch_plan_ports_and_executable envDefault diskBoth ["-NoSteam"] rfl rfl
    (by intro a ha; simp at ha; subst ha; exact ⟨by decide, by decide⟩)
  exact ⟨⟨h.1.1, h.1.2.1⟩, h.1.2.2.1, (h.2.2.1 rfl).1⟩

/-- Claim C8 counterexample: a concrete update against a gracefully
stopping server answers the `initiated` success payload whose keys are
exactly those of the source's JSON — `provisioning_exit_code` is not among
them — contradicting the claim that the response carries the provisioning
step's exit code. -/
theorem update_response_lacks_exit_code :
    (update_server "2131400" (some (55, behaviorGraceful))).2 = .initiated "2131400" ∧
    "provisioning_exit_code" ∉
      UpdateResult.responseKeys (update_server "2131400" (some (55, behaviorGraceful))).2 := by
  exact ⟨rfl, by decide⟩

/-- Claim C8 (amended): no `update_server` response ever contains a
provisioning exit code, and whenever the shutdown phase leaves the located
process dead the route reports plain success — built before the detached
entrypoint has run SteamCMD, hence independent of the provisioning
outcome. -/
theorem update_response_never_has_exit_code (appid : String)
    (scan : Option (Nat × StopBehavior)) :
    "provisioning_exit_code" ∉ UpdateResult.responseKeys (update_server appid scan).2 ∧
    (scanStillAliveAfterShutdownPhase scan = false →
      (update_server appid scan).2 = .initiated appid) := by
  match scan with
  | none =>
    exact ⟨by simp [update_server, UpdateResult.responseKeys], fun _ => rfl⟩
  | some (pid, b) =>
    cases hg : b.exitsWithinGraceful <;> cases hf : b.exitsWithinForce <;>
      simp [update_server, scanStillAliveAfterShutdownPhase, hg, hf,
        UpdateResult.responseKeys]

/-- Witness for C8 (amended): the update with no located process reports
success with no provisioning exit code in its keys. -/
theorem update_response_never_has_exit_code_witness :
    "provisioning_exit_code" ∉
        UpdateResult.responseKeys (update_server "2131400" none).2 ∧
    (update_server "2131400" none).2 = .initiated "2131400" :=
  ⟨(update_response_never_has_exit_code "2131400" none).1,
   (update_response_never_has_exit_code "2131400" none).2 rfl⟩

/-- Claim C9: the log-content endpoint's containment check is a plain
string-prefix test on the unnormalised joined path, so the filename
`../../../../../../etc/passwd` passes it — the endpoint returns the
content of the joined path, which the operating system resolves to
`/etc/passwd`, a file outside the log directory. -/
theorem log_endpoint_path_traversal :
    get_log_content (fun p => p == pathJoin LOG_DIR traversalName) traversalName =
      .content (pathJoin LOG_DIR traversalName) ∧
    normalizePath (pathJoin LOG_DIR traversalName) = "/etc/passwd" ∧
    insideLogDir (normalizePath (pathJoin LOG_DIR traversalName)) = false := by
  refine ⟨?_, ?_, ?_⟩ <;> decide

end VeinServer
